import Mathlib

/-!
Shallow embedding of `ros/src/tl_detector/tl_detector.py` (traffic-light
detector node) and verification of the specification's claims about it.

Modelling conventions:
* Coordinates are modelled as exact integers (`ℤ`): the program treats
  positions as opaque numbers and only compares functions of them, so
  every theorem below is about the algorithms' behaviour on exact
  arithmetic; witnesses use concrete integer inputs.
* The Python helper `distance` returns a Euclidean distance via `sqrt`;
  the program only ever *compares* distances (`<`, `>`, and against the
  relevance radius 150).  Since `sqrt` is strictly monotone on
  nonnegative reals, we embed squared distances (`dist2`) and compare
  against squared thresholds (150² = 22500), which preserves every
  comparison exactly.
* Fallible code paths (Python `KeyError`, `IndexError`, `TypeError`)
  are modelled with `Option`: `none` stands for a raised exception.
* Python dicts are modelled as association lists with the exact dict
  semantics used by the program: insert overwrites in place and keeps
  key order, lookup returns the unique binding.
-/

/-- A 2D position, `Point` in the source (waypoints, poses, stop-line
configuration entries all carry `x`/`y` coordinates). -/
structure Point where
  x : ℤ
  y : ℤ
deriving DecidableEq

/-- Traffic-light state, the values of `styx_msgs/TrafficLight` used by
the program (`RED`, `YELLOW`, `GREEN`, `UNKNOWN`). -/
inductive TLState where
  | RED
  | YELLOW
  | GREEN
  | UNKNOWN
deriving DecidableEq

/-- `STATE_COUNT_THRESHOLD = 3` from the source. -/
def STATE_COUNT_THRESHOLD : Nat := 3

/-- Squared Euclidean distance; embeds the source's `distance` (which
returns `sqrt` of this value) — see the monotonicity note above. -/
def dist2 (p q : Point) : ℤ :=
  (p.x - q.x) * (p.x - q.x) + (p.y - q.y) * (p.y - q.y)

/-- The debounce-relevant fields of `Detector`: `self.state` (confirmed
state, initialized in `__init__` to `UNKNOWN`), `self.state_count`
(initialized to 0), `self.last_stop_line` (initialized to `None`). -/
structure DebounceState where
  state : TLState
  state_count : Nat
  last_stop_line : Option Int
deriving DecidableEq

/-- The initial debounce state set up by `Detector.__init__`. -/
def initDebounce : DebounceState :=
  { state := TLState.UNKNOWN, state_count := 0, last_stop_line := none }

/-- One iteration of the body of `Detector.loop`, parametrized by the
values the iteration reads (`stop_line = self.get_stop_line()`,
`raw = self.get_traffic_light_state()`).  Returns the new debounce
state and the event published on this tick, if any:
* `stop_line` is `None` → `continue` (nothing changes, nothing published);
* `self.state != state` → reset `state_count` to 0, adopt the raw state;
* `elif state_count == STATE_COUNT_THRESHOLD or (state_count >
  STATE_COUNT_THRESHOLD and last_stop_line != stop_line)` (Python
  precedence: `or` over `and`) → publish `TrafficWaypoint(stop_line, state)`
  and record `last_stop_line`;
* finally `state_count += 1`. -/
def loop_step (stop_line : Option Int) (raw : TLState) (d : DebounceState) :
    DebounceState × Option (Int × TLState) :=
  match stop_line with
  | none => (d, none)
  | some sl =>
    let step :=
      if d.state ≠ raw then
        ({ d with state_count := 0, state := raw }, (none : Option (Int × TLState)))
      else if d.state_count = STATE_COUNT_THRESHOLD ∨
          (d.state_count > STATE_COUNT_THRESHOLD ∧ d.last_stop_line ≠ some sl) then
        ({ d with last_stop_line := some sl }, some (sl, raw))
      else
        (d, none)
    ({ step.1 with state_count := step.1.state_count + 1 }, step.2)

/-- Runs `Detector.loop` over a finite list of ticks, each tick given by
the pair (stop line read this tick, raw light state read this tick);
collects the published events in order. -/
def run_ticks : List (Option Int × TLState) → DebounceState →
    DebounceState × List (Int × TLState)
  | [], d => (d, [])
  | t :: ts, d =>
    let step := loop_step t.1 t.2 d
    let rest := run_ticks ts step.1
    (rest.1, step.2.toList ++ rest.2)

example :
    (run_ticks [(some 2, TLState.RED), (some 2, TLState.RED),
      (some 2, TLState.RED)] initDebounce).2 = [] := by decide

example :
    (run_ticks [(some 2, TLState.RED), (some 2, TLState.RED),
      (some 2, TLState.RED), (some 2, TLState.RED)] initDebounce).2 =
      [(2, TLState.RED)] := by decide

example :
    (run_ticks (List.replicate 6 (some 2, TLState.RED)) initDebounce).2 =
      [(2, TLState.RED)] := by decide

example :
    (run_ticks (List.replicate 4 (some 2, TLState.UNKNOWN)) initDebounce).2 =
      [(2, TLState.UNKNOWN)] := by decide

/-- The shared mutable fields of `Detector` (debounce fields included,
flattened): `self.state`, `self.state_count`, `self.last_stop_line`,
`self.shared_car_index`, `self.shared_waypoints`, `self.shared_stop_lines`,
all set up by `Detector.__init__`. -/
structure DetectorState where
  state : TLState
  state_count : Nat
  last_stop_line : Option Int
  shared_car_index : Option Nat
  shared_waypoints : Option (List Point)
  shared_stop_lines : Option (List Int)
deriving DecidableEq

/-- The state established by `Detector.__init__`. -/
def initDetector : DetectorState :=
  { state := TLState.UNKNOWN, state_count := 0, last_stop_line := none,
    shared_car_index := none, shared_waypoints := none,
    shared_stop_lines := none }

/-- `Detector.get_closest_waypoint`: exhaustive scan for the index of
minimum distance, strict `<` so the first minimizer wins; the initial
best is `sys.maxint`, which every actual distance beats, so the first
waypoint is always adopted on the first iteration; returns `-1` when the
waypoint list is missing or empty (the source logs an error then). -/
def get_closest_waypoint_scan (p : Point) : List Point → Nat → ℤ → Nat → Nat
  | [], _, _, best => best
  | w :: ws, i, bestd, best =>
    if dist2 w p < bestd then get_closest_waypoint_scan p ws (i + 1) (dist2 w p) i
    else get_closest_waypoint_scan p ws (i + 1) bestd best

/-- `Detector.get_closest_waypoint` over an explicit waypoint list. -/
def get_closest_waypoint (wps : List Point) (p : Point) : Int :=
  match wps with
  | [] => -1
  | w :: ws => (get_closest_waypoint_scan p ws 1 (dist2 w p) 0 : Int)

/-- The forward scan in `Detector.pose_cb`:
`for i in range(ci + 1, len(wps)): if dist > current_dist: break` —
advance `shared_car_index` to each successive waypoint whose distance
does not increase past the running minimum.  The first (`fuel`)
argument is a structural bound on the number of iterations; the loop
runs at most `wps.length` times, so callers pass `wps.length` and the
bound is never the reason the scan stops (see `pose_scan_eq_descend`
below). -/
def pose_scan (pose : Point) (wps : List Point) :
    Nat → Nat → ℤ → Nat
  | 0, ci, _ => ci
  | fuel + 1, ci, cd =>
    if h : ci + 1 < wps.length then
      let d := dist2 pose (wps.get ⟨ci + 1, h⟩)
      if d > cd then ci
      else pose_scan pose wps fuel (ci + 1) d
    else ci

/-- `Detector.pose_cb`: no-op when no route is loaded; otherwise reset
`shared_car_index` to 0 when it is `None` or exceeds
`shared_stop_lines[-1]`, then run the local-descent forward scan.
The `shared_stop_lines = none` arm is unreachable in program runs
(`waypoints_cb` sets both fields together; Python would fault there).
`wps.getD` stands for `wps[ci0]`, in range in reachable states. -/
def pose_cb (pose : Point) (s : DetectorState) : DetectorState :=
  match s.shared_waypoints with
  | none => s
  | some wps =>
    match s.shared_stop_lines with
    | none => s
    | some sls =>
      let ci0 : Nat :=
        match s.shared_car_index with
        | none => 0
        | some ci => if (ci : Int) > sls.getLastD 0 then 0 else ci
      let cd := dist2 pose (wps.getD ci0 ⟨0, 0⟩)
      { s with shared_car_index := some (pose_scan pose wps wps.length ci0 cd) }

/-- `Detector.waypoints_cb`, with the route message's waypoint positions
and the configured stop-line positions passed explicitly (the source
reads the latter from the `/traffic_light_config` parameter): invalidate
the car index; if the configured stop-line list is empty return early;
otherwise store the route and the sorted list of closest-waypoint
indices of the configured positions (`list.sort()` ascending —
modelled by `insertionSort`, a stable sort). -/
def waypoints_cb (msg_waypoints : List Point) (stop_lines : List Point)
    (s : DetectorState) : DetectorState :=
  let s1 := { s with shared_car_index := (none : Option Nat) }
  if stop_lines.isEmpty then s1
  else
    { s1 with
      shared_waypoints := some msg_waypoints,
      shared_stop_lines := some
        (List.insertionSort (· ≤ ·)
          (stop_lines.map (get_closest_waypoint msg_waypoints))) }

/-- `Detector.get_stop_line`: `None` when the car index is undefined;
otherwise the first stored stop-line index strictly greater than the
car index (the stored list is sorted).  The `shared_stop_lines = none`
arm is unreachable when the car index is defined. -/
def get_stop_line (s : DetectorState) : Option Int :=
  match s.shared_car_index with
  | none => none
  | some ci =>
    match s.shared_stop_lines with
    | none => none
    | some sls => sls.find? (fun idx => decide ((ci : Int) < idx))

example :
    (waypoints_cb [⟨0, 0⟩, ⟨10, 0⟩] [⟨0, 0⟩, ⟨1, 0⟩]
      initDetector).shared_stop_lines = some [0, 0] := by decide

example :
    get_closest_waypoint [⟨0, 0⟩, ⟨10, 0⟩, ⟨20, 0⟩] ⟨12, 0⟩ = 1 := by decide

example :
    (pose_cb ⟨12, 0⟩
      { initDetector with
        shared_car_index := some 0,
        shared_waypoints := some [⟨0, 0⟩, ⟨10, 0⟩, ⟨20, 0⟩],
        shared_stop_lines := some [2] }).shared_car_index = some 1 := by
  decide

/-- `ImageDetector.get_traffic_light_state`: `UNKNOWN` while no camera
frame has arrived; otherwise decode the stored frame and delegate to
the external classifier.  The classifier and the image type are outside
the core (opaque collaborators), so both are parameters here. -/
def ImageDetector.get_traffic_light_state {α : Type} (classify : α → TLState)
    (shared_camera_image : Option α) : TLState :=
  match shared_camera_image with
  | none => TLState.UNKNOWN
  | some img => classify img

/-- Python dict update `d[k] = v`: overwrite in place when the key is
present (keeping its position), else append at the end. -/
def dictSet {κ ν : Type} [DecidableEq κ] : List (κ × ν) → κ → ν → List (κ × ν)
  | [], k, v => [(k, v)]
  | (k1, v1) :: t, k, v =>
    if k1 = k then (k, v) :: t else (k1, v1) :: dictSet t k v

/-- Python dict lookup `d[k]`; `none` models a `KeyError`. -/
def dictGet {κ ν : Type} [DecidableEq κ] : List (κ × ν) → κ → Option ν
  | [], _ => none
  | (k1, v1) :: t, k => if k1 = k then some v1 else dictGet t k

/-- `LightData`, the per-light record stored by `DummyDetector`:
bound waypoint index and last reported state. -/
structure LightData where
  index : Int
  state : TLState
deriving DecidableEq

/-- A `/vehicle/traffic_lights` array entry: the light's reported pose
position and its reported state. -/
structure LightMsg where
  pos : Point
  state : TLState
deriving DecidableEq

/-- `get_light_point`: the quantized dict key derived from a light's
position by `int()` truncation.  On the integer-coordinate model the
truncation is the identity, so the key is the coordinate pair itself. -/
def get_light_point (l : LightMsg) : Int × Int :=
  (l.pos.x, l.pos.y)

/-- The fields added by `DummyDetector.__init__` on top of `Detector`:
`self.shared_traffic_lights` (quantized key → `LightData`, initially
`None`) and `self.tl_map` (waypoint index → quantized key, initially the
empty dict). -/
structure DummyState where
  base : DetectorState
  shared_traffic_lights : Option (List ((Int × Int) × LightData))
  tl_map : List (Int × (Int × Int))
deriving DecidableEq

/-- The first-message branch of `DummyDetector.traffic_cb`: build the
bindings, inserting one entry per light into both dicts. -/
def traffic_build (wps : List Point) :
    List LightMsg → List ((Int × Int) × LightData) → List (Int × (Int × Int)) →
    List ((Int × Int) × LightData) × List (Int × (Int × Int))
  | [], d, m => (d, m)
  | l :: ls, d, m =>
    let point := get_light_point l
    let index := get_closest_waypoint wps l.pos
    traffic_build wps ls (dictSet d point ⟨index, l.state⟩)
      (dictSet m index point)

/-- The subsequent-message branch of `DummyDetector.traffic_cb`: for
each light, look its key up (a missing key is a `KeyError`, modelled by
`none`) and overwrite the binding with the stored index and the fresh
state. -/
def traffic_update :
    List LightMsg → List ((Int × Int) × LightData) →
    Option (List ((Int × Int) × LightData))
  | [], d => some d
  | l :: ls, d =>
    let point := get_light_point l
    match dictGet d point with
    | none => none
    | some ld => traffic_update ls (dictSet d point ⟨ld.index, l.state⟩)

/-- `DummyDetector.traffic_cb`: returns early when no route is loaded;
on the first light-array message builds both dicts (starting from the
fresh empty `shared_traffic_lights` dict and the `tl_map` dict, which is
still empty then); on every later message only updates states in
place. -/
def DummyDetector.traffic_cb (lights : List LightMsg) (s : DummyState) :
    Option DummyState :=
  match s.base.shared_waypoints with
  | none => some s
  | some wps =>
    match s.shared_traffic_lights with
    | none =>
      let built := traffic_build wps lights [] s.tl_map
      some { s with shared_traffic_lights := some built.1, tl_map := built.2 }
    | some d =>
      (traffic_update lights d).map
        (fun d1 => { s with shared_traffic_lights := some d1 })

/-- Python list indexing `l[i]` with an `int` index: supports negative
indices from the end; out of range is an `IndexError` (`none`). -/
def pyIndex {α : Type} (l : List α) (i : Int) : Option α :=
  if 0 ≤ i then l.get? i.toNat
  else if (-i).toNat ≤ l.length then l.get? (l.length - (-i).toNat)
  else none

/-- `DummyDetector.get_traffic_light_state`: `UNKNOWN` while no light
bindings exist; otherwise take the smallest `tl_map` key (the keys are
traversed in sorted order) strictly greater than the car index — none
means `UNKNOWN`; with the vehicle more than the relevance radius away
from that waypoint (squared comparison against 150² = 22500) the answer
is `UNKNOWN` regardless of the light's reported state; otherwise the
bound light's last reported state.  An undefined car index is modelled
as a fault (`none`): Python 2 orders `int > None` as true, and the
subsequent `waypoints[None]` raises. -/
def DummyDetector.get_traffic_light_state (s : DummyState) : Option TLState :=
  match s.shared_traffic_lights with
  | none => some TLState.UNKNOWN
  | some tls =>
    match s.base.shared_car_index with
    | none => none
    | some ci =>
      match (List.insertionSort (· ≤ ·) (s.tl_map.map Prod.fst)).find?
          (fun k => decide ((ci : Int) < k)) with
      | none => some TLState.UNKNOWN
      | some tlIndex =>
        match s.base.shared_waypoints with
        | none => none
        | some wps =>
          match pyIndex wps tlIndex, wps.get? ci with
          | some wk, some wv =>
            if dist2 wk wv > 22500 then some TLState.UNKNOWN
            else
              match dictGet s.tl_map tlIndex with
              | none => none
              | some pt =>
                match dictGet tls pt with
                | none => none
                | some ld => some ld.state
          | _, _ => none

example :
    DummyDetector.get_traffic_light_state
      { base :=
          { initDetector with
            shared_car_index := some 0,
            shared_waypoints := some [⟨0, 0⟩, ⟨10, 0⟩, ⟨20, 0⟩] },
        shared_traffic_lights := some [((20, 0), ⟨2, TLState.RED⟩)],
        tl_map := [(2, (20, 0))] } = some TLState.RED := by decide

example :
    DummyDetector.get_traffic_light_state
      { base :=
          { initDetector with
            shared_car_index := some 0,
            shared_waypoints := some [⟨0, 0⟩, ⟨200, 0⟩] },
        shared_traffic_lights := some [((200, 0), ⟨1, TLState.RED⟩)],
        tl_map := [(1, (200, 0))] } = some TLState.UNKNOWN := by decide

example :
    DummyDetector.traffic_cb [⟨⟨20, 0⟩, TLState.GREEN⟩]
      { base :=
          { initDetector with
            shared_waypoints := some [⟨0, 0⟩, ⟨10, 0⟩, ⟨20, 0⟩] },
        shared_traffic_lights := some [((20, 0), ⟨2, TLState.RED⟩)],
        tl_map := [(2, (20, 0))] } =
      some
        { base :=
            { initDetector with
              shared_waypoints := some [⟨0, 0⟩, ⟨10, 0⟩, ⟨20, 0⟩] },
          shared_traffic_lights := some [((20, 0), ⟨2, TLState.GREEN⟩)],
          tl_map := [(2, (20, 0))] } := by decide

/-- Transcribed from the spec's words for the Debouncer transition
(section 4.4), for comparison against the source-derived `loop_step`:
if the raw state differs from the confirmed state, adopt it and restart
the confirmation window (counter back to 0, then the final increment
makes it 1); otherwise publish `(stopLineIndex, confirmedState)` when
the counter equals the threshold, or exceeds it with a changed
stop-line target; the counter is incremented after the evaluation. -/
def spec_debounce_step (sl : Int) (raw : TLState) (d : DebounceState) :
    DebounceState × Option (Int × TLState) :=
  if raw ≠ d.state then
    ({ state := raw, state_count := 1, last_stop_line := d.last_stop_line },
      none)
  else if d.state_count = 3 ∨ (d.state_count > 3 ∧ some sl ≠ d.last_stop_line) then
    ({ state := d.state, state_count := d.state_count + 1,
       last_stop_line := some sl }, some (sl, d.state))
  else
    ({ state := d.state, state_count := d.state_count + 1,
       last_stop_line := d.last_stop_line }, none)

/-- Transcribed from the spec's words for the RouteTrack pose-update
scan (section 4.1), for comparison against the source-derived
`pose_scan`: walk the successive waypoints after the current one; while
the next waypoint's distance is at most the current minimum, advance
and update the minimum; stop at the first whose distance increases. -/
def spec_descend (pose : Point) : List Point → Nat → ℤ → Nat
  | [], i, _ => i
  | w :: ws, i, best =>
    if dist2 pose w ≤ best then spec_descend pose ws (i + 1) (dist2 pose w)
    else i

/-- Transcribed from the spec's words (section 4.1): the index update
performed by one pose message — start from the last known index, after
resetting it to 0 when it is undefined or exceeds the last stop-line
index; then run the forward descent over the remaining waypoints. -/
def spec_updatePose (pose : Point) (wps : List Point) (sls : List Int)
    (ci0 : Option Nat) : Nat :=
  let start : Nat :=
    match ci0 with
    | none => 0
    | some ci => if (ci : Int) > sls.getLastD 0 then 0 else ci
  spec_descend pose (wps.drop (start + 1)) start
    (dist2 pose (wps.getD start ⟨0, 0⟩))

/-- Helper: running the control loop over a concatenation of tick lists
chains the debounce state and concatenates the published events. -/
theorem run_ticks_append (a b : List (Option Int × TLState)) (d : DebounceState) :
    run_ticks (a ++ b) d =
      ((run_ticks b (run_ticks a d).1).1,
        (run_ticks a d).2 ++ (run_ticks b (run_ticks a d).1).2) := by
  induction a generalizing d with
  | nil => simp [run_ticks]
  | cons t ts ih => simp [run_ticks, ih]

/-- Helper: steady state of the debouncer — once the confirmed state
matches the raw state, the counter is beyond the threshold and the last
published stop line is the current one, further identical ticks publish
nothing. -/
theorem run_ticks_steady (sl : Int) (r : TLState) :
    ∀ (n : Nat) (d : DebounceState), d.state = r → d.last_stop_line = some sl →
      d.state_count > 3 →
      run_ticks (List.replicate n (some sl, r)) d =
        ({ d with state_count := d.state_count + n }, []) := by
  intro n
  induction n with
  | zero => intro d _ _ _; simp [run_ticks]
  | succ n ih =>
    intro d hs hl hc
    rw [List.replicate_succ]
    have h1 : ¬ (d.state ≠ r) := by simp [hs]
    have h2 : ¬ (d.state_count = STATE_COUNT_THRESHOLD ∨
        (d.state_count > STATE_COUNT_THRESHOLD ∧ d.last_stop_line ≠ some sl)) := by
      simp only [STATE_COUNT_THRESHOLD]
      push_neg
      exact ⟨by omega, fun _ => hl⟩
    have hstep : loop_step (some sl) r d =
        ({ d with state_count := d.state_count + 1 }, none) := by
      simp only [loop_step, if_neg h1, if_neg h2]
    have ih2 := ih { d with state_count := d.state_count + 1 } hs hl
      (by show d.state_count + 1 > 3; omega)
    simp only [run_ticks, hstep, ih2, Option.toList, List.nil_append]
    simp only [Prod.mk.injEq, DebounceState.mk.injEq, true_and, and_true]
    omega

/-- Helper: from the initial debounce state, four consecutive ticks with
the same raw state and the same stop line publish the event exactly on
the fourth tick and leave the debouncer in its steady state. -/
theorem run_four (sl : Int) (r : TLState) :
    run_ticks (List.replicate 4 (some sl, r)) initDebounce =
      (⟨r, 4, some sl⟩, [(sl, r)]) := by
  cases r <;> rfl

/-- Claim C1 (counterexample): with a fixed stop line 2 ahead and raw
state RED on ticks 1, 2, 3 from the initial debounce state, NO event is
published during those three ticks — refuting the claim's statement that
`(2, RED)` is published on tick 3.  The counter is compared *before* its
increment, so it reads 0, 1, 2 on these ticks and never the
threshold. -/
theorem debouncer_no_publish_in_first_three_ticks :
    (run_ticks [(some 2, TLState.RED), (some 2, TLState.RED),
      (some 2, TLState.RED)] initDebounce).2 = [] := by decide

/-- Claim C1 (amended): for a fixed stop line ahead and identical raw
states on every tick from the initial debounce state, the event is
published exactly once, namely on tick 4 (the tick whose pre-increment
counter equals the threshold 3), and never republished on subsequent
identical ticks for the same stop line: over any horizon of 4 or more
ticks the list of published events is exactly `[(stopLine, state)]`. -/
theorem debouncer_publishes_exactly_once_on_fourth_tick
    (sl : Int) (r : TLState) (n : Nat) :
    (run_ticks (List.replicate (n + 4) (some sl, r)) initDebounce).2 =
      [(sl, r)] := by
  rw [show n + 4 = 4 + n from by omega, List.replicate_add, run_ticks_append,
    run_four]
  simp [run_ticks_steady sl r n ⟨r, 4, some sl⟩ rfl rfl
    (show (4 : Nat) > 3 by decide)]

/-- Claim C2: the source's per-tick debounce transition, for a present
stop line, is exactly the step the spec describes: adopt-and-reset on a
raw-state change; otherwise publish when the counter equals the
threshold 3, or exceeds it while the stop-line target differs from the
last published one; the counter is incremented after the evaluation.
In particular a changed stop-line target with the counter above the
threshold republishes with no fresh confirmation window. -/
theorem debounce_step_eq_spec (sl : Int) (raw : TLState) (d : DebounceState) :
    loop_step (some sl) raw d = spec_debounce_step sl raw d := by
  simp only [loop_step, spec_debounce_step, STATE_COUNT_THRESHOLD]
  by_cases h1 : d.state = raw
  · rw [if_neg (show ¬ d.state ≠ raw by simp [h1]),
      if_neg (show ¬ raw ≠ d.state by simp [h1])]
    by_cases h2 : d.state_count = 3 ∨
        (d.state_count > 3 ∧ d.last_stop_line ≠ some sl)
    · have h2s : d.state_count = 3 ∨
          (d.state_count > 3 ∧ some sl ≠ d.last_stop_line) := by
        rcases h2 with h | ⟨ha, hb⟩
        · exact Or.inl h
        · exact Or.inr ⟨ha, Ne.symm hb⟩
      rw [if_pos h2, if_pos h2s, h1]
    · have h2s : ¬ (d.state_count = 3 ∨
          (d.state_count > 3 ∧ some sl ≠ d.last_stop_line)) := by
        intro hcon
        apply h2
        rcases hcon with h | ⟨ha, hb⟩
        · exact Or.inl h
        · exact Or.inr ⟨ha, Ne.symm hb⟩
      rw [if_neg h2, if_neg h2s]
  · rw [if_pos (show d.state ≠ raw from h1),
      if_pos (show raw ≠ d.state from Ne.symm h1)]

/-- Helper: with enough fuel (the loop can run at most
`wps.length - ci - 1` iterations), the source's indexed scan computes
the same index as the spec's walk over the remaining waypoints. -/
theorem pose_scan_eq_descend (pose : Point) (wps : List Point) :
    ∀ (fuel ci : Nat) (cd : ℤ), wps.length - (ci + 1) ≤ fuel →
      pose_scan pose wps fuel ci cd =
        spec_descend pose (wps.drop (ci + 1)) ci cd := by
  intro fuel
  induction fuel with
  | zero =>
    intro ci cd h
    have hd : wps.drop (ci + 1) = [] := List.drop_eq_nil_of_le (by omega)
    rw [hd]
    simp [pose_scan, spec_descend]
  | succ fuel ih =>
    intro ci cd h
    by_cases h1 : ci + 1 < wps.length
    · have hd : wps.drop (ci + 1) = wps.get ⟨ci + 1, h1⟩ :: wps.drop (ci + 1 + 1) :=
        List.drop_eq_getElem_cons h1
      rw [hd]
      simp only [pose_scan, spec_descend, dif_pos h1]
      by_cases h2 : dist2 pose (wps.get ⟨ci + 1, h1⟩) > cd
      · rw [if_pos h2, if_neg (not_le.mpr h2)]
      · rw [if_neg h2, if_pos (le_of_not_lt h2)]
        exact ih (ci + 1) _ (by omega)
    · have hd : wps.drop (ci + 1) = [] := List.drop_eq_nil_of_le (by omega)
      rw [hd]
      simp only [pose_scan, spec_descend, dif_neg h1]

/-- Claim C4: with a loaded route, one pose update computes the new
vehicle index exactly as the spec states it: reset the stored index to
0 when it is undefined or exceeds the last stop-line index, then
advance through successive waypoints while each next distance is at
most the running minimum, stopping at the first increase; no other
field changes. -/
theorem pose_cb_eq_spec_updatePose (pose : Point) (s : DetectorState)
    (wps : List Point) (sls : List Int)
    (hw : s.shared_waypoints = some wps)
    (hs : s.shared_stop_lines = some sls) :
    pose_cb pose s =
      { s with
        shared_car_index :=
          some (spec_updatePose pose wps sls s.shared_car_index) } := by
  simp only [pose_cb, hw, hs, spec_updatePose]
  rw [pose_scan_eq_descend pose wps wps.length _ _ (by omega)]

/-- Concrete state for the Claim C4 witness: three waypoints on a line,
stop line at index 2, vehicle previously at index 0. -/
def stateC4 : DetectorState :=
  { initDetector with
    shared_car_index := some 0,
    shared_waypoints := some [⟨0, 0⟩, ⟨10, 0⟩, ⟨20, 0⟩],
    shared_stop_lines := some [2] }

/-- Witness for Claim C4: a pose at `(12, 0)` advances the vehicle
index from 0 to 1 (distance decreases to waypoint 1, increases at
waypoint 2), and the source computation agrees with the spec's scan. -/
theorem pose_cb_eq_spec_updatePose_witness :
    spec_updatePose ⟨12, 0⟩ [⟨0, 0⟩, ⟨10, 0⟩, ⟨20, 0⟩] [2] (some 0) = 1 ∧
      pose_cb ⟨12, 0⟩ stateC4 =
        { stateC4 with
          shared_car_index :=
            some (spec_updatePose ⟨12, 0⟩ [⟨0, 0⟩, ⟨10, 0⟩, ⟨20, 0⟩] [2]
              (some 0)) } :=
  ⟨by decide,
    pose_cb_eq_spec_updatePose ⟨12, 0⟩ stateC4 [⟨0, 0⟩, ⟨10, 0⟩, ⟨20, 0⟩] [2]
      rfl rfl⟩

/-- Helper: in a list sorted ascending, every element is at most the
last one. -/
theorem sorted_le_getLast :
    ∀ (l : List Int) (hne : l ≠ []), l.Sorted (· ≤ ·) →
      ∀ x ∈ l, x ≤ l.getLast hne := by
  intro l
  induction l with
  | nil => intro hne; exact absurd rfl hne
  | cons a t ih =>
    intro hne hs x hx
    rw [List.sorted_cons] at hs
    obtain ⟨ha, ht⟩ := hs
    cases t with
    | nil =>
      simp only [List.mem_singleton] at hx
      subst hx
      simp [List.getLast]
    | cons b t2 =>
      rw [List.getLast_cons (by simp)]
      rcases List.mem_cons.mp hx with rfl | hx2
      · exact ha _ (List.getLast_mem _)
      · exact ih (by simp) ht x hx2

/-- Helper: on a list sorted ascending, `find?` with the predicate
`v < ·` returns exactly the minimum element strictly greater than
`v`. -/
theorem sorted_find_gt (v : Int) :
    ∀ (l : List Int), l.Sorted (· ≤ ·) → ∀ k,
      (l.find? (fun x => decide (v < x)) = some k ↔
        (k ∈ l ∧ v < k ∧ ∀ x ∈ l, v < x → k ≤ x)) := by
  intro l
  induction l with
  | nil => intro _ k; simp
  | cons a t ih =>
    intro hs k
    rw [List.sorted_cons] at hs
    obtain ⟨ha, ht⟩ := hs
    by_cases hva : v < a
    · rw [List.find?_cons_of_pos _ (by simpa using hva)]
      constructor
      · intro h
        injection h with h
        subst h
        refine ⟨List.mem_cons_self a t, hva, ?_⟩
        intro x hx _
        rcases List.mem_cons.mp hx with rfl | hx
        · exact le_refl x
        · exact ha x hx
      · rintro ⟨hk, hvk, hmin⟩
        have h1 : k ≤ a := hmin a (List.mem_cons_self a t) hva
        have h2 : a ≤ k := by
          rcases List.mem_cons.mp hk with rfl | hk
          · exact le_refl k
          · exact ha k hk
        rw [le_antisymm h1 h2]
    · rw [List.find?_cons_of_neg _ (by simpa using hva)]
      rw [ih ht k]
      constructor
      · rintro ⟨hk, hvk, hmin⟩
        refine ⟨List.mem_cons_of_mem a hk, hvk, ?_⟩
        intro x hx hvx
        rcases List.mem_cons.mp hx with rfl | hx
        · exact absurd hvx hva
        · exact hmin x hx hvx
      · rintro ⟨hk, hvk, hmin⟩
        have hk2 : k ∈ t := by
          rcases List.mem_cons.mp hk with rfl | hk2
          · exact absurd hvk hva
          · exact hk2
        exact ⟨hk2, hvk, fun x hx hvx => hmin x (List.mem_cons_of_mem a hx) hvx⟩

/-- Claim C3: with a (sorted, as always stored) stop-line list and a
defined vehicle index `v`, `get_stop_line` returns the minimum stored
index strictly greater than `v`, and returns `none` exactly when `v` is
at least the maximum stored index. -/
theorem get_stop_line_next_after (sls : List Int) (v : Nat) (s : DetectorState)
    (hsort : sls.Sorted (· ≤ ·)) (hne : sls ≠ [])
    (hci : s.shared_car_index = some v)
    (hsl : s.shared_stop_lines = some sls) :
    (∀ m, get_stop_line s = some m →
        m ∈ sls ∧ (v : Int) < m ∧ ∀ x ∈ sls, (v : Int) < x → m ≤ x) ∧
    (get_stop_line s = none ↔ sls.getLast hne ≤ (v : Int)) := by
  have hgs : get_stop_line s = sls.find? (fun idx => decide ((v : Int) < idx)) := by
    simp [get_stop_line, hci, hsl]
  constructor
  · intro m hm
    rw [hgs] at hm
    exact (sorted_find_gt (v : Int) sls hsort m).mp hm
  · rw [hgs, List.find?_eq_none]
    constructor
    · intro h
      have h2 := h (sls.getLast hne) (List.getLast_mem hne)
      simpa using h2
    · intro h x hx
      simp only [decide_eq_true_eq, not_lt]
      exact le_trans (sorted_le_getLast sls hne hsort x hx) h

/-- Concrete state for the Claim C3 witness: vehicle index 3, stored
stop lines `[2, 5]`. -/
def stateC3 : DetectorState :=
  { initDetector with
    shared_car_index := some 3,
    shared_stop_lines := some [2, 5] }

/-- Witness for Claim C3: on the concrete sorted stop-line list `[2, 5]`
with vehicle index 3, `get_stop_line` returns 5 and the theorem yields
its minimality. -/
theorem get_stop_line_next_after_witness :
    get_stop_line stateC3 = some 5 ∧ (5 : Int) ∈ [(2 : Int), 5] ∧
      (3 : Int) < 5 ∧ ∀ x ∈ [(2 : Int), 5], (3 : Int) < x → (5 : Int) ≤ x :=
  ⟨by decide,
    (get_stop_line_next_after [2, 5] 3 stateC3 (by decide) (by decide)
      rfl rfl).1 5 (by decide)⟩

/-- Helper: the pose scan never moves the index backwards. -/
theorem pose_scan_ge (pose : Point) (wps : List Point) :
    ∀ (fuel ci : Nat) (cd : ℤ), ci ≤ pose_scan pose wps fuel ci cd := by
  intro fuel
  induction fuel with
  | zero => intro ci cd; simp [pose_scan]
  | succ fuel ih =>
    intro ci cd
    simp only [pose_scan]
    by_cases h1 : ci + 1 < wps.length
    · rw [dif_pos h1]
      by_cases h2 : dist2 pose (wps.get ⟨ci + 1, h1⟩) > cd
      · rw [if_pos h2]
      · rw [if_neg h2]
        exact le_trans (Nat.le_succ ci) (ih (ci + 1) _)
    · rw [dif_neg h1]

/-- Helper: a pose update never touches the route or the stop-line
list. -/
theorem pose_cb_preserves (pose : Point) (s : DetectorState) :
    (pose_cb pose s).shared_waypoints = s.shared_waypoints ∧
      (pose_cb pose s).shared_stop_lines = s.shared_stop_lines := by
  cases hw : s.shared_waypoints with
  | none => simp [pose_cb, hw]
  | some wps =>
    cases hs : s.shared_stop_lines with
    | none => simp [pose_cb, hw, hs]
    | some sls => simp [pose_cb, hw, hs]

/-- The relation claimed between consecutive states under pose updates
on a fixed route with stop-line list `sls`: when both states carry a
vehicle index, the index does not decrease — unless the earlier one had
advanced past the last stop-line index, the condition under which
`pose_cb` resets the scan to 0. -/
def carIndex_step_ok (sls : List Int) (a b : DetectorState) : Prop :=
  ∀ ci ci', a.shared_car_index = some ci → b.shared_car_index = some ci' →
    ci ≤ ci' ∨ sls.getLastD 0 < (ci : Int)

/-- Helper: a single pose update satisfies `carIndex_step_ok`. -/
theorem pose_cb_step_ok (pose : Point) (s : DetectorState)
    (wps : List Point) (sls : List Int)
    (hw : s.shared_waypoints = some wps)
    (hs : s.shared_stop_lines = some sls) :
    carIndex_step_ok sls s (pose_cb pose s) := by
  intro ci ci' h1 h2
  by_cases hpast : sls.getLastD 0 < (ci : Int)
  · exact Or.inr hpast
  · left
    simp only [pose_cb, hw, hs, h1] at h2
    rw [if_neg (by simpa using hpast)] at h2
    simp only [Option.some.injEq] at h2
    rw [← h2]
    exact pose_scan_ge pose wps wps.length ci _

/-- The successive detector states produced by a sequence of pose
messages. -/
def pose_trace (poses : List Point) (s : DetectorState) : List DetectorState :=
  List.scanl (fun t p => pose_cb p t) s poses

/-- Claim C5: across any sequence of pose updates on one fixed loaded
route, consecutive states always satisfy `carIndex_step_ok`: the
vehicle index never decreases, except when the earlier index had
advanced past the last stop-line index (the reset-to-0 rescan case);
an undefined index carries no value to decrease from. -/
theorem car_index_monotone_chain (poses : List Point) (s : DetectorState)
    (wps : List Point) (sls : List Int)
    (hw : s.shared_waypoints = some wps)
    (hs : s.shared_stop_lines = some sls) :
    List.Chain' (carIndex_step_ok sls) (pose_trace poses s) := by
  induction poses generalizing s with
  | nil => simp [pose_trace]
  | cons p ps ih =>
    have hpre := pose_cb_preserves p s
    have hw2 : (pose_cb p s).shared_waypoints = some wps := by rw [hpre.1, hw]
    have hs2 : (pose_cb p s).shared_stop_lines = some sls := by rw [hpre.2, hs]
    have htr : pose_trace (p :: ps) s = s :: pose_trace ps (pose_cb p s) := by
      simp [pose_trace, List.scanl]
    rw [htr, List.chain'_cons']
    refine ⟨?_, ih (pose_cb p s) hw2 hs2⟩
    intro b hb
    have hhead : (pose_trace ps (pose_cb p s)).head? = some (pose_cb p s) := by
      cases ps <;> simp [pose_trace, List.scanl]
    rw [hhead] at hb
    simp only [Option.mem_def, Option.some.injEq] at hb
    rw [← hb]
    exact pose_cb_step_ok p s wps sls hw hs

/-- Witness for Claim C5: two pose updates on the concrete route of
`stateC4` (the second past the stop line) form a chain under
`carIndex_step_ok`. -/
theorem car_index_monotone_chain_witness :
    List.Chain' (carIndex_step_ok [2])
      (pose_trace [⟨12, 0⟩, ⟨21, 0⟩] stateC4) :=
  car_index_monotone_chain [⟨12, 0⟩, ⟨21, 0⟩] stateC4
    [⟨0, 0⟩, ⟨10, 0⟩, ⟨20, 0⟩] [2] rfl rfl

/-- Claim C6 (counterexample): two configured stop-line positions that
bind to the same closest waypoint leave a duplicate in the stored list —
`waypoints_cb` sorts but never deduplicates — refuting the claim that
the stored indices are always distinct. -/
theorem stop_lines_duplicate :
    (waypoints_cb [⟨0, 0⟩, ⟨10, 0⟩] [⟨0, 0⟩, ⟨1, 0⟩]
        initDetector).shared_stop_lines = some [0, 0] ∧
      ¬ ([0, 0] : List Int).Nodup :=
  ⟨by decide, by decide⟩

/-- Claim C6 (amended): after every route load with a nonempty stop-line
configuration, the stored stop-line indices are the closest-waypoint
indices of the configured positions, in ascending order — but they are
not deduplicated: the stored list is a sorted permutation of the
per-position results, duplicates included. -/
theorem stop_lines_sorted_perm (wps cfg : List Point) (s : DetectorState)
    (hcfg : cfg ≠ []) :
    ∃ sls, (waypoints_cb wps cfg s).shared_stop_lines = some sls ∧
      sls.Sorted (· ≤ ·) ∧ sls.Perm (cfg.map (get_closest_waypoint wps)) := by
  refine ⟨List.insertionSort (· ≤ ·) (cfg.map (get_closest_waypoint wps)),
    ?_, List.sorted_insertionSort _ _, List.perm_insertionSort _ _⟩
  rcases cfg with _ | ⟨c, cs⟩
  · exact absurd rfl hcfg
  · simp [waypoints_cb]

/-- Witness for Claim C6 (amended): the duplicate-producing input of the
counterexample still yields a sorted stored list. -/
theorem stop_lines_sorted_perm_witness :
    ∃ sls, (waypoints_cb [⟨0, 0⟩, ⟨10, 0⟩] [⟨0, 0⟩, ⟨1, 0⟩]
        initDetector).shared_stop_lines = some sls ∧
      sls.Sorted (· ≤ ·) ∧
      sls.Perm ([⟨0, 0⟩, ⟨1, 0⟩].map
        (get_closest_waypoint [⟨0, 0⟩, ⟨10, 0⟩])) :=
  stop_lines_sorted_perm [⟨0, 0⟩, ⟨10, 0⟩] [⟨0, 0⟩, ⟨1, 0⟩] initDetector
    (by decide)

/-- Helper: a key among a dict's keys has a binding. -/
theorem dictGet_mem_keys {κ ν : Type} [DecidableEq κ] :
    ∀ (l : List (κ × ν)) (k : κ), k ∈ l.map Prod.fst →
      ∃ v, dictGet l k = some v := by
  intro l
  induction l with
  | nil => intro k h; simp at h
  | cons kv t ih =>
    intro k h
    rcases kv with ⟨k1, v1⟩
    by_cases he : k1 = k
    · exact ⟨v1, by simp [dictGet, he]⟩
    · simp only [List.map_cons, List.mem_cons] at h
      rcases h with h | h
      · exact absurd h.symm he
      · obtain ⟨v, hv⟩ := ih k h
        exact ⟨v, by simp [dictGet, he, hv]⟩

/-- Helper: overwriting a present key leaves the key list unchanged. -/
theorem dictSet_keys_of_mem {κ ν : Type} [DecidableEq κ] :
    ∀ (l : List (κ × ν)) (k : κ) (v : ν), k ∈ l.map Prod.fst →
      (dictSet l k v).map Prod.fst = l.map Prod.fst := by
  intro l
  induction l with
  | nil => intro k v h; simp at h
  | cons kv t ih =>
    intro k v h
    rcases kv with ⟨k1, v1⟩
    by_cases he : k1 = k
    · simp [dictSet, he]
    · simp only [List.map_cons, List.mem_cons] at h
      rcases h with h | h
      · exact absurd h.symm he
      · simp [dictSet, he, ih k v h]

/-- Helper: looking up the key just set yields the new value. -/
theorem dictGet_dictSet_self {κ ν : Type} [DecidableEq κ] :
    ∀ (l : List (κ × ν)) (k : κ) (v : ν), dictGet (dictSet l k v) k = some v := by
  intro l
  induction l with
  | nil => intro k v; simp [dictGet, dictSet]
  | cons kv t ih =>
    intro k v
    rcases kv with ⟨k1, v1⟩
    by_cases he : k1 = k
    · simp [dictGet, dictSet, he]
    · simp [dictGet, dictSet, he, ih]

/-- Helper: setting one key leaves every other lookup unchanged. -/
theorem dictGet_dictSet_ne {κ ν : Type} [DecidableEq κ] :
    ∀ (l : List (κ × ν)) (k k1 : κ) (v : ν), k1 ≠ k →
      dictGet (dictSet l k v) k1 = dictGet l k1 := by
  intro l
  induction l with
  | nil =>
    intro k k1 v hne
    have hkk1 : ¬ k = k1 := fun h => hne h.symm
    simp [dictGet, dictSet, hkk1]
  | cons kv t ih =>
    intro k k1 v hne
    rcases kv with ⟨k2, v2⟩
    have hkk1 : ¬ k = k1 := fun h => hne h.symm
    by_cases he : k2 = k
    · simp [dictGet, dictSet, he, hkk1]
    · simp [dictGet, dictSet, he, ih k k1 v hne]

/-- Helper: when every incoming light's quantized key is already bound,
the update branch of `traffic_cb` succeeds and changes only the stored
states: the key list and every binding's waypoint index survive. -/
theorem traffic_update_spec :
    ∀ (lights : List LightMsg) (d : List ((Int × Int) × LightData)),
      (∀ l ∈ lights, get_light_point l ∈ d.map Prod.fst) →
      ∃ d1, traffic_update lights d = some d1 ∧
        d1.map Prod.fst = d.map Prod.fst ∧
        ∀ k, (dictGet d1 k).map LightData.index =
          (dictGet d k).map LightData.index := by
  intro lights
  induction lights with
  | nil => intro d _; exact ⟨d, rfl, rfl, fun _ => rfl⟩
  | cons l ls ih =>
    intro d hmem
    obtain ⟨ld, hld⟩ := dictGet_mem_keys d (get_light_point l)
      (hmem l (List.mem_cons_self l ls))
    have hkeys : (dictSet d (get_light_point l)
        ⟨ld.index, l.state⟩).map Prod.fst = d.map Prod.fst :=
      dictSet_keys_of_mem d _ _ (hmem l (List.mem_cons_self l ls))
    have hmem2 : ∀ x ∈ ls, get_light_point x ∈
        (dictSet d (get_light_point l) ⟨ld.index, l.state⟩).map Prod.fst := by
      intro x hx
      rw [hkeys]
      exact hmem x (List.mem_cons_of_mem l hx)
    obtain ⟨d1, hupd, hk1, hi1⟩ := ih _ hmem2
    refine ⟨d1, ?_, by rw [hk1, hkeys], ?_⟩
    · simp only [traffic_update, hld]
      exact hupd
    · intro k
      rw [hi1 k]
      by_cases he : k = get_light_point l
      · subst he
        rw [dictGet_dictSet_self, hld]
        rfl
      · rw [dictGet_dictSet_ne d _ _ _ he]

/-- Claim C8: with light bindings already built (so this is not the
first light-array message) and every incoming light's quantized key
already bound, `traffic_cb` succeeds and only updates states in place:
the resulting detector state is the old one with only the binding dict
replaced (in particular `tl_map` is untouched), the set of quantized
keys is unchanged, and every binding keeps its waypoint index. -/
theorem traffic_cb_update_in_place (lights : List LightMsg) (s : DummyState)
    (d : List ((Int × Int) × LightData)) (wps : List Point)
    (hw : s.base.shared_waypoints = some wps)
    (hl : s.shared_traffic_lights = some d)
    (hk : ∀ l ∈ lights, get_light_point l ∈ d.map Prod.fst) :
    ∃ d1, DummyDetector.traffic_cb lights s =
        some { s with shared_traffic_lights := some d1 } ∧
      d1.map Prod.fst = d.map Prod.fst ∧
      ∀ k, (dictGet d1 k).map LightData.index =
        (dictGet d k).map LightData.index := by
  obtain ⟨d1, hupd, hkeys, hidx⟩ := traffic_update_spec lights d hk
  refine ⟨d1, ?_, hkeys, hidx⟩
  simp only [DummyDetector.traffic_cb, hw, hl, hupd, Option.map]

/-- Concrete dummy-detector state for the Claim C8 witness: one light
bound at waypoint 2 with key `(20, 0)`. -/
def stateC8 : DummyState :=
  { base :=
      { initDetector with
        shared_car_index := some 0,
        shared_waypoints := some [⟨0, 0⟩, ⟨10, 0⟩, ⟨20, 0⟩] },
    shared_traffic_lights := some [((20, 0), ⟨2, TLState.RED⟩)],
    tl_map := [(2, (20, 0))] }

/-- Witness for Claim C8: a second light-array message reporting GREEN
for the already-bound light updates the state in place, preserving keys
and the bound index. -/
theorem traffic_cb_update_in_place_witness :
    ∃ d1, DummyDetector.traffic_cb [⟨⟨20, 0⟩, TLState.GREEN⟩] stateC8 =
        some { stateC8 with shared_traffic_lights := some d1 } ∧
      d1.map Prod.fst = [((20, 0), (⟨2, TLState.RED⟩ : LightData))].map Prod.fst ∧
      ∀ k, (dictGet d1 k).map LightData.index =
        (dictGet [((20, 0), (⟨2, TLState.RED⟩ : LightData))] k).map
          LightData.index :=
  traffic_cb_update_in_place [⟨⟨20, 0⟩, TLState.GREEN⟩] stateC8
    [((20, 0), ⟨2, TLState.RED⟩)] [⟨0, 0⟩, ⟨10, 0⟩, ⟨20, 0⟩] rfl rfl
    (by decide)

/-- Claim C7: for the ground-truth variant with bindings present and a
defined vehicle index `v`: when no bound waypoint index is strictly
greater than `v`, the result is UNKNOWN; otherwise, for the minimum such
index, the result is UNKNOWN whenever the squared distance between its
waypoint and the vehicle's waypoint exceeds 150² = 22500 regardless of
the bound light's reported state, and otherwise it is the bound light's
last reported state. -/
theorem dummy_current_state_spec (s : DummyState)
    (tls : List ((Int × Int) × LightData)) (v : Nat) (wps : List Point)
    (hl : s.shared_traffic_lights = some tls)
    (hc : s.base.shared_car_index = some v)
    (hw : s.base.shared_waypoints = some wps) :
    ((∀ k ∈ s.tl_map.map Prod.fst, ¬ (v : Int) < k) →
        DummyDetector.get_traffic_light_state s = some TLState.UNKNOWN) ∧
    (∀ k, k ∈ s.tl_map.map Prod.fst → (v : Int) < k →
      (∀ x ∈ s.tl_map.map Prod.fst, (v : Int) < x → k ≤ x) →
      ∀ wk wv, pyIndex wps k = some wk → wps.get? v = some wv →
        (22500 < dist2 wk wv →
          DummyDetector.get_traffic_light_state s = some TLState.UNKNOWN) ∧
        (dist2 wk wv ≤ 22500 →
          ∀ pt ld, dictGet s.tl_map k = some pt → dictGet tls pt = some ld →
            DummyDetector.get_traffic_light_state s = some ld.state)) := by
  have hperm := List.perm_insertionSort (· ≤ ·) (s.tl_map.map Prod.fst)
  have hsorted := List.sorted_insertionSort (· ≤ ·) (s.tl_map.map Prod.fst)
  constructor
  · intro hno
    have hfind : (List.insertionSort (· ≤ ·) (s.tl_map.map Prod.fst)).find?
        (fun k => decide ((v : Int) < k)) = none := by
      rw [List.find?_eq_none]
      intro x hx
      simpa using hno x (hperm.mem_iff.mp hx)
    simp [DummyDetector.get_traffic_light_state, hl, hc, hfind]
  · intro k hk hvk hmin wk wv hwk hwv
    rw [List.get?_eq_getElem?] at hwv
    have hfind : (List.insertionSort (· ≤ ·) (s.tl_map.map Prod.fst)).find?
        (fun x => decide ((v : Int) < x)) = some k := by
      rw [sorted_find_gt (v : Int) _ hsorted k]
      exact ⟨hperm.mem_iff.mpr hk, hvk,
        fun x hx hvx => hmin x (hperm.mem_iff.mp hx) hvx⟩
    constructor
    · intro hfar
      simp [DummyDetector.get_traffic_light_state, hl, hc, hfind, hw, hwk,
        hwv, hfar]
    · intro hnear pt ld hpt hld
      have hnf : ¬ dist2 wk wv > 22500 := not_lt.mpr hnear
      simp [DummyDetector.get_traffic_light_state, hl, hc, hfind, hw, hwk,
        hwv, hnf, hpt, hld]

/-- Concrete dummy-detector state for the Claim C7 witness: vehicle at
waypoint 0, one light bound at waypoint 2, 20 units away, reported
RED. -/
def stateC7 : DummyState :=
  { base :=
      { initDetector with
        shared_car_index := some 0,
        shared_waypoints := some [⟨0, 0⟩, ⟨10, 0⟩, ⟨20, 0⟩] },
    shared_traffic_lights := some [((20, 0), ⟨2, TLState.RED⟩)],
    tl_map := [(2, (20, 0))] }

/-- Witness for Claim C7: on `stateC7` the bound light is within the
relevance radius and its reported RED state is returned. -/
theorem dummy_current_state_spec_witness :
    DummyDetector.get_traffic_light_state stateC7 = some TLState.RED :=
  ((dummy_current_state_spec stateC7 [((20, 0), ⟨2, TLState.RED⟩)] 0
      [⟨0, 0⟩, ⟨10, 0⟩, ⟨20, 0⟩] rfl rfl rfl).2 2 (by decide) (by decide)
      (by decide) ⟨20, 0⟩ ⟨0, 0⟩ (by decide) rfl).2 (by decide) (20, 0)
      ⟨2, TLState.RED⟩ rfl rfl

/-- Helper: ticks with no stop line ahead leave the debouncer untouched
and publish nothing, over any raw-state sequence. -/
theorem run_ticks_no_stop_line :
    ∀ (raws : List TLState) (d : DebounceState),
      run_ticks (raws.map (fun r => ((none : Option Int), r))) d = (d, []) := by
  intro raws
  induction raws with
  | nil => intro d; simp [run_ticks]
  | cons r rs ih => intro d; simp [run_ticks, loop_step, ih]

/-- The state established by `DummyDetector.__init__` on top of a base
detector state: no light bindings, empty index-to-key dict. -/
def initDummy : DummyState :=
  { base := initDetector, shared_traffic_lights := none, tl_map := [] }

/-- Claim C9: all no-data conditions yield the neutral result rather
than a fault: with no route loaded a pose update changes no state; with
no vehicle index no stop line is reported; with no stop line ahead no
tick ever publishes; with no camera frame yet the image variant answers
UNKNOWN; with no light bindings yet the ground-truth variant answers
UNKNOWN. -/
theorem no_data_neutral {α : Type} (classify : α → TLState)
    (s : DetectorState) (pose : Point) (d : DebounceState)
    (raws : List TLState) (ds : DummyState)
    (hw : s.shared_waypoints = none)
    (hc : s.shared_car_index = none)
    (hd : ds.shared_traffic_lights = none) :
    pose_cb pose s = s ∧
    get_stop_line s = none ∧
    run_ticks (raws.map (fun r => ((none : Option Int), r))) d = (d, []) ∧
    ImageDetector.get_traffic_light_state classify (none : Option α) =
      TLState.UNKNOWN ∧
    DummyDetector.get_traffic_light_state ds = some TLState.UNKNOWN := by
  refine ⟨?_, ?_, run_ticks_no_stop_line raws d, rfl, ?_⟩
  · simp [pose_cb, hw]
  · simp [get_stop_line, hc]
  · simp [DummyDetector.get_traffic_light_state, hd]

/-- Witness for Claim C9: the freshly constructed detector states (no
route, no pose, no frame, no bindings) all answer neutrally. -/
theorem no_data_neutral_witness :
    pose_cb ⟨1, 2⟩ initDetector = initDetector ∧
    get_stop_line initDetector = none ∧
    run_ticks ([TLState.RED].map (fun r => ((none : Option Int), r)))
      initDebounce = (initDebounce, []) ∧
    ImageDetector.get_traffic_light_state (fun _ : Unit => TLState.RED)
      (none : Option Unit) = TLState.UNKNOWN ∧
    DummyDetector.get_traffic_light_state initDummy = some TLState.UNKNOWN :=
  no_data_neutral (fun _ : Unit => TLState.RED) initDetector ⟨1, 2⟩
    initDebounce [TLState.RED] initDummy rfl rfl rfl

/-- Claim C10: because the confirmed state is initialized to UNKNOWN and
UNKNOWN is debounced like any other state, a raw source stuck at UNKNOWN
with a stop line ahead publishes `(stopLine, UNKNOWN)`: during the first
three ticks the pre-increment counter reads 0, 1, 2 and nothing is
published; on the fourth tick the counter has reached the threshold 3
and the event is emitted. -/
theorem unknown_state_published_at_threshold (sl : Int) :
    run_ticks (List.replicate 3 (some sl, TLState.UNKNOWN)) initDebounce =
        (⟨TLState.UNKNOWN, 3, none⟩, []) ∧
      run_ticks (List.replicate 4 (some sl, TLState.UNKNOWN)) initDebounce =
        (⟨TLState.UNKNOWN, 4, some sl⟩, [(sl, TLState.UNKNOWN)]) :=
  ⟨rfl, rfl⟩
